import Mathlib

/-!
# Verification of the Apollo → Reoon → Instantly automation pipeline

Shallow embedding of the Python sources under `src/eran-python-automation-newbranch/`:

* `utils.py` — `split_contacts` (percentage split of a shuffled contact list);
* `apollo.py` — `fetch_all_contacts_from_list` (paginated fetch with 429 retry);
* `instantly.py` — `push_to_instantly` (batched upload) and the cursor-pagination
  loop of `delete_finished_leads`;
* `reoon.py` — `verify_emails` (bulk verification: task creation, polling,
  result classification);
* `main.py` / `logger.py` — the deduplication step of `run_automation_flow`.

Network requests are modelled by response oracles (a function or list of the
responses the remote service produces, one per request issued); `os.getenv`
lookups become `Option String` parameters (`none` models an unset *or empty*
variable, matching Python falsiness of `""` under `not x`); Python `raise`
becomes the `Except.error` branch of an `Except String` result.

Python's float arithmetic in `split_contacts` (`int(len(contacts) *
(primary_percent / 100))`) is modelled exactly: IEEE-754 binary64
round-to-nearest, ties-to-even, implemented over ℕ/ℤ with dyadic
significand/exponent pairs.
-/

/-! ## IEEE-754 binary64 model (exact, over ℕ/ℤ)

A nonnegative finite double is a dyadic rational `m * 2 ^ e` with `m < 2 ^ 53`.
All values arising in `split_contacts` are far from overflow and subnormal
range, so normal-range rounding suffices.
-/

/-- Round `N / D` to the nearest natural, ties to even (`D ≠ 0` in use). -/
def rne (N D : ℕ) : ℕ :=
  let k := N / D
  let r := N % D
  if 2 * r < D then k
  else if D < 2 * r then k + 1
  else if k % 2 = 0 then k else k + 1

/-- `⌊log₂ a⌋` for `a ≥ 1` (0 at 0), by structural recursion on a fuel bound
so that the kernel can evaluate it. -/
def log2fuel : ℕ → ℕ → ℕ
  | 0, _ => 0
  | _, 0 => 0
  | _, 1 => 0
  | fuel + 1, a => log2fuel fuel (a / 2) + 1

/-- `⌊log₂ a⌋` for `a ≥ 1`. -/
def natLog2 (a : ℕ) : ℕ := log2fuel a a

/-- `⌊log₂ (a / b)⌋` for positive naturals `a`, `b`. -/
def flog2 (a b : ℕ) : ℤ :=
  let c : ℤ := (natLog2 a : ℤ) - (natLog2 b : ℤ)
  if (if 0 ≤ c then b * 2 ^ c.toNat ≤ a else b ≤ a * 2 ^ (-c).toNat) then c else c - 1

/-- Round the nonnegative rational `a / b` to the nearest binary64 value,
ties to even, returned as a dyadic pair `(m, e)` standing for `m * 2 ^ e`.
Zero maps to `(0, 0)`. -/
def roundB64 (a b : ℕ) : ℕ × ℤ :=
  if a = 0 then (0, 0)
  else
    let e : ℤ := flog2 a b - 52
    if 0 ≤ e then (rne a (b * 2 ^ e.toNat), e)
    else (rne (a * 2 ^ (-e).toNat) b, e)

/-- Truncation toward zero of a nonnegative dyadic `m * 2 ^ e`
(Python `int(...)` on a nonnegative float). -/
def truncDyadic : ℕ × ℤ → ℕ
  | (m, e) => if 0 ≤ e then m * 2 ^ e.toNat else m / 2 ^ (-e).toNat

/-- The split index computed by `utils.split_contacts`:
`int(len(contacts) * (primary_percent / 100))` under CPython semantics —
`primary_percent / 100` is correctly-rounded binary64 true division, the
`int` length is converted to binary64, the product is correctly-rounded
binary64 multiplication, and `int(...)` truncates. -/
def pySplitIndex (n p : ℕ) : ℕ :=
  let d := roundB64 p 100
  let nf := roundB64 n 1
  let num := nf.1 * d.1
  let e := nf.2 + d.2
  truncDyadic (if 0 ≤ e then roundB64 (num * 2 ^ e.toNat) 1 else roundB64 num (2 ^ (-e).toNat))

/-! ## `utils.split_contacts`

The Python function first shuffles `contacts` in place with `random.shuffle`
and then slices at the split index.  The model takes the already-shuffled list
as input; theorems quantify over every permutation of the original list, which
covers every outcome of the shuffle. -/

/-- `utils.split_contacts`, applied to the post-shuffle list.  Returns
`(campaign_a, campaign_b)`; raises `ValueError` outside `[0, 100]`. -/
def split_contacts (shuffled : List α) (primary_percent : ℤ) :
    Except String (List α × List α) :=
  if 0 ≤ primary_percent ∧ primary_percent ≤ 100 then
    let split_index := pySplitIndex shuffled.length primary_percent.toNat
    .ok (shuffled.take split_index, shuffled.drop split_index)
  else .error "Percentage must be between 0 and 100."

/-! ## Shared contact record

`apollo.py` builds contact dicts with fixed keys; the rest of the pipeline
reads those keys (with `.get` defaults).  Absent and empty string values
coincide for every use site (Python truthiness), so each field is a `String`
with `""` for missing. -/

/-- A contact dict as built by `apollo.fetch_all_contacts_from_list`. -/
structure Contact where
  id : String := ""
  first_name : String := ""
  last_name : String := ""
  email : String := ""
  company : String := ""
  linkedin : String := ""
  annual_revenue : String := ""
  company_headcount : String := ""
deriving Repr, DecidableEq

/-- Split a list into consecutive chunks of `bs` (Python
`for i in range(0, len(l), bs): l[i:i+bs]`), by structural recursion on a
fuel bound so the kernel can evaluate it.  `bs = 0` yields `[]`
(Python raises there; no caller uses 0 — the call sites use 100). -/
def toBatchesFuel (bs : ℕ) : ℕ → List α → List (List α)
  | 0, _ => []
  | _, [] => []
  | fuel + 1, l => l.take bs :: toBatchesFuel bs fuel (l.drop bs)

/-- All consecutive batches of size `bs` of a list. -/
def toBatches (bs : ℕ) (l : List α) : List (List α) :=
  if bs = 0 then [] else toBatchesFuel bs l.length l

/-! ## `instantly.push_to_instantly`

Environment: `INSTANTLY_API_KEY`, `CAMPAIGN_PRIMARY_ID`,
`CAMPAIGN_SECONDARY_ID` (`none` = unset or empty, i.e. falsy).  Each batch
upload is one `requests.post`, answered by a response oracle indexed by the
number of requests issued so far. -/

/-- The Instantly environment variables read by `push_to_instantly`. -/
structure InstantlyEnv where
  api_key : Option String
  campaign_primary_id : Option String
  campaign_secondary_id : Option String

/-- Outcome of one `requests.post`: an HTTP response with a status code, or
an exception raised during the request. -/
inductive ReqOutcome where
  | status (code : ℕ)
  | exn (msg : String)

/-- `campaign_ids.get(campaign_key)`: the dict literally maps
`"campaign_a"` / `"campaign_b"` to the two environment values; `.get` gives
`None` on any other key. -/
def campaignIdFor (env : InstantlyEnv) (key : String) : Option String :=
  if key = "campaign_a" then env.campaign_primary_id
  else if key = "campaign_b" then env.campaign_secondary_id
  else none

/-- `response.status_code in (200, 201)` for a batch request; an exception
during the request is caught and counts as failure. -/
def isSuccess : ReqOutcome → Bool
  | .status c => c = 200 || c = 201
  | .exn _ => false

/-- `instantly.push_to_instantly`.  `contacts_split` is the input dict as an
association list in insertion order; `oracle i` answers the `i`-th batch
request (0-based).  Returns the accumulated `total_uploaded`, or the
`ValueError` when the credential check at the top fails. -/
def push_to_instantly (env : InstantlyEnv)
    (contacts_split : List (String × List Contact))
    (oracle : ℕ → ReqOutcome) (batch_size : ℕ := 100) :
    Except String ℕ :=
  if env.api_key = none ∨ env.campaign_primary_id = none ∨
      env.campaign_secondary_id = none then
    .error "Missing Instantly credentials (API Key or Campaign IDs) in environment variables"
  else
    .ok (contacts_split.foldl (fun acc kv =>
      match campaignIdFor env kv.1 with
      | none => acc
      | some _ =>
        if kv.2 = [] then acc
        else (toBatches batch_size kv.2).foldl (fun a batch =>
          if isSuccess (oracle a.1) then (a.1 + 1, a.2 + batch.length)
          else (a.1 + 1, a.2)) acc) ((0, 0) : ℕ × ℕ)).2

/-- Specification view of the upload traffic: the batch lists of every
campaign of the input whose key has a configured destination id, flattened
in request order. -/
def plannedBatches (env : InstantlyEnv)
    (contacts_split : List (String × List Contact)) (bs : ℕ) :
    List (List Contact) :=
  (contacts_split.filterMap (fun kv =>
    match campaignIdFor env kv.1 with
    | none => none
    | some _ => some (toBatches bs kv.2))).flatten

/-- Specification view of the return value: the total size of the batches
whose (0-based, in request order) request succeeded. -/
def uploadedTotal (oracle : ℕ → ReqOutcome) (batches : List (List Contact)) : ℕ :=
  ((batches.enum.filter (fun ib => isSuccess (oracle ib.1))).map
    (fun ib => ib.2.length)).sum

/-! ## `apollo.fetch_all_contacts_from_list`

The while-loop issues one `requests.post` per iteration; `oracle r` answers
the `r`-th request issued (0-based).  The loop state is the next page number
(starting at 1), the accumulated contacts, the trace of page numbers
requested so far (one entry per request, recording which page each request
asked for) and the total seconds slept (`time.sleep(1)` after a processed
page, `time.sleep(900)` on a 429).  Fuel bounds the number of iterations;
`none` means the fuel ran out with the loop still running. -/

/-- A raw contact record of an Apollo response page; `""` models a missing
or empty (falsy) field. -/
structure RawContact where
  id : String := ""
  first_name : String := ""
  last_name : String := ""
  email : String := ""
  org_name : String := ""
  linkedin_url : String := ""
  org_annual_revenue : String := ""
  org_estimated_num_employees : String := ""
deriving Repr, DecidableEq

/-- The contact dict appended for a raw contact with a truthy email. -/
def toContact (c : RawContact) : Contact :=
  { id := c.id, first_name := c.first_name, last_name := c.last_name,
    email := c.email, company := c.org_name, linkedin := c.linkedin_url,
    annual_revenue := c.org_annual_revenue,
    company_headcount := c.org_estimated_num_employees }

/-- One parsed Apollo response page. -/
structure ApolloPage where
  contacts : List RawContact := []
deriving Repr, DecidableEq

/-- Outcome of one Apollo page request: an HTTP response with a status code
and (when not an error status) a parsed page, or a non-HTTP exception. -/
inductive ApolloResp where
  | resp (status : ℕ) (page : ApolloPage)
  | exn (msg : String)

/-- The final state of a completed fetch: the accumulated contacts, the
page number asked for by each request issued, and the seconds slept. -/
structure FetchDone where
  contacts : List Contact
  trace : List ℕ
  slept : ℕ
deriving Repr, DecidableEq

/-- `if test_mode_pages and page > int(test_mode_pages)` at the top of the
loop body: `true` when test mode is set and the next page is past the limit. -/
def testModeLimitHit (tm : Option ℕ) (page : ℕ) : Bool :=
  match tm with
  | some t => decide (t < page)
  | none => false

/-- The `while True` loop of `fetch_all_contacts_from_list`.
`tm` is `TEST_MODE_PAGES` (`none` = unset).  On an HTTP error status
(`raise_for_status`): 429 sleeps 900 s and retries the *same* page number;
any other 4xx/5xx raises.  An empty `contacts` array ends the loop.
Otherwise the raw contacts with truthy email are appended and the page
number advances. -/
def fetchLoop (tm : Option ℕ) (oracle : ℕ → ApolloResp) :
    ℕ → ℕ → ℕ → List Contact → List ℕ → ℕ →
    Option (Except String FetchDone)
  | 0, _, _, _, _, _ => none
  | fuel + 1, req, page, acc, trace, slept =>
    if testModeLimitHit tm page then
      some (.ok ⟨acc, trace, slept⟩)
    else
      match oracle req with
      | .exn m => some (.error ("Unexpected error on page: " ++ m))
      | .resp status pg =>
        if 400 ≤ status ∧ status < 600 then
          if status = 429 then
            fetchLoop tm oracle fuel (req + 1) page acc (trace ++ [page]) (slept + 900)
          else some (.error ("HTTP Error " ++ toString status))
        else
          if pg.contacts = [] then some (.ok ⟨acc, trace ++ [page], slept⟩)
          else
            fetchLoop tm oracle fuel (req + 1) (page + 1)
              (acc ++ (pg.contacts.filter (fun c => c.email ≠ "")).map toContact)
              (trace ++ [page]) (slept + 1)

/-- `needle` occurs at the start of `hay` (character lists). -/
def charsStartWith : List Char → List Char → Bool
  | [], _ => true
  | _ :: _, [] => false
  | a :: as, b :: bs => a == b && charsStartWith as bs

/-- `needle` occurs somewhere in `hay` (character lists). -/
def charsContain (needle : List Char) : List Char → Bool
  | [] => charsStartWith needle []
  | b :: bs => charsStartWith needle (b :: bs) || charsContain needle bs

/-- Python `needle in hay` for strings. -/
def strContains (needle hay : String) : Bool :=
  charsContain needle.data hay.data

/-- `apollo.fetch_all_contacts_from_list`: credential and placeholder checks
(`APOLLO_API_KEY`, `APOLLO_LIST_ID`; `none` = unset or empty), then the page
loop starting at page 1 with empty accumulators. -/
def fetch_all_contacts_from_list (api_key list_id : Option String)
    (tm : Option ℕ) (oracle : ℕ → ApolloResp) (fuel : ℕ) :
    Option (Except String FetchDone) :=
  match api_key, list_id with
  | some _, some lid =>
    if strContains "REPLACE_WITH" lid then
      some (.error "FATAL: Please replace APOLLO_LIST_ID placeholder with your actual list ID")
    else fetchLoop tm oracle fuel 0 1 [] [] 0
  | _, _ => some (.error "Missing Apollo credentials: APOLLO_API_KEY and APOLLO_LIST_ID must be set")

/-- An oracle that answers the `r`-th request with status 200 and the `r`-th
page of a fixed list (empty page once the list is exhausted). -/
def pagesOracle (pages : List ApolloPage) : ℕ → ApolloResp :=
  fun r => .resp 200 (pages.getD r {})


/-! ## `reoon.verify_emails`

Per batch of at most 100 emails: one task-creation POST (`create j` for the
`j`-th batch), then a poll loop (`poll j k` answers the `k`-th poll of batch
`j`, each after a `time.sleep(10)`), then classification of the completed
task's results dict (items in insertion order). -/

/-- One entry of the `results` dict of a completed verification task.
`is_safe_to_send` / `is_deliverable` are the JSON flags (absent = false);
`status` and `overall_score` are read with `.get`. -/
structure Verification where
  is_safe_to_send : Bool := false
  is_deliverable : Bool := false
  status : Option String := none
  overall_score : Option ℤ := none
deriving Repr, DecidableEq

/-- An entry of the `invalid_contacts` list built by `verify_emails`. -/
structure InvalidRecord where
  email : String
  reason : String
  details : String
deriving Repr, DecidableEq

/-- Python `str(x)` of an optional JSON number. -/
def optScoreStr : Option ℤ → String
  | none => "None"
  | some n => toString n

/-- The invalid-contact record built for a returned result that fails the
flag test: `reason = verification.get('status', 'unknown')` and the
`details` f-string. -/
def mkInvalid (e : String) (v : Verification) : InvalidRecord :=
  let reason := v.status.getD "unknown"
  ⟨e, reason, "Score: " ++ optScoreStr v.overall_score ++ ", Status: " ++ reason⟩

/-- `contact_map[email]`: the dict comprehension
`{contact['email']: contact for contact in contacts}` keeps the *last*
contact for a duplicated email; lookup is `none` exactly on a `KeyError`. -/
def contactMapLookup (contacts : List Contact) (e : String) : Option Contact :=
  contacts.reverse.find? (fun c => c.email = e)

/-- The result-classification loop of `verify_emails` (`for email,
verification in results.items()`), appending to the running accumulators;
an email with no `contact_map` entry raises a `KeyError`, which the
enclosing `except` re-raises. -/
def processResults (contacts : List Contact) :
    List (String × Verification) → List Contact → List InvalidRecord →
    Except String (List Contact × List InvalidRecord)
  | [], vs, is => .ok (vs, is)
  | (e, v) :: rest, vs, is =>
    match contactMapLookup contacts e with
    | none => .error ("KeyError: " ++ e)
    | some c =>
      if v.is_safe_to_send && v.is_deliverable then
        processResults contacts rest (vs ++ [c]) is
      else
        processResults contacts rest vs (is ++ [mkInvalid e v])

/-- Outcome of one poll GET (after `raise_for_status`): an exception, or the
parsed body's `status` and `results` fields. -/
inductive PollResp where
  | exn (msg : String)
  | ok (status : Option String) (results : List (String × Verification))

/-- The state a poll loop run ends in: polls performed, seconds slept
(`time.sleep(10)` before each poll), and the completed task's results or
the error raised. -/
structure PollOutcome where
  attempts : ℕ
  slept : ℕ
  result : Except String (List (String × Verification))
deriving Repr

/-- The error raised when the attempt budget is exhausted. -/
def pollTimeoutMsg : String := "Verification not completed after 180 seconds"

/-- `for attempt in range(max_tries): sleep(10); GET; break if completed`
with the `for`-`else` raising on exhaustion. -/
def pollLoop (poll : ℕ → PollResp) : ℕ → ℕ → ℕ → PollOutcome
  | 0, att, slept => ⟨att, slept, .error pollTimeoutMsg⟩
  | tries + 1, att, slept =>
    match poll att with
    | .exn m => ⟨att + 1, slept + 10, .error m⟩
    | .ok st results =>
      if st = some "completed" then ⟨att + 1, slept + 10, .ok results⟩
      else pollLoop poll tries (att + 1) (slept + 10)

/-- The poll loop as `verify_emails` runs it: `max_tries = 18`. -/
def pollTask (poll : ℕ → PollResp) : PollOutcome := pollLoop poll 18 0 0

/-- Outcome of one task-creation POST (after `raise_for_status`): an
exception, or the parsed body's `task_id` (`none` = missing). -/
inductive CreateResp where
  | exn (msg : String)
  | ok (task_id : Option String)

/-- The per-batch loop of `verify_emails` over the email batches: create a
task, poll it, classify its results into the running accumulators.  Any
error aborts the whole function (the broad `except` re-raises). -/
def verifyBatches (contacts : List Contact) (create : ℕ → CreateResp)
    (poll : ℕ → ℕ → PollResp) :
    List (List String) → ℕ → List Contact → List InvalidRecord →
    Except String (List Contact × List InvalidRecord)
  | [], _, vs, is => .ok (vs, is)
  | _batch :: rest, j, vs, is =>
    match create j with
    | .exn m => .error m
    | .ok none => .error "No task ID returned from Reoon API"
    | .ok (some _) =>
      match (pollTask (poll j)).result with
      | .error m => .error m
      | .ok results =>
        match processResults contacts results vs is with
        | .error m => .error m
        | .ok (vs', is') => verifyBatches contacts create poll rest (j + 1) vs' is'

/-- `reoon.verify_emails`: credential check, then the batch loop over the
contact emails chunked at Reoon's max batch size of 100. -/
def verify_emails (api_key : Option String) (contacts : List Contact)
    (create : ℕ → CreateResp) (poll : ℕ → ℕ → PollResp) :
    Except String (List Contact × List InvalidRecord) :=
  match api_key with
  | none => .error "Missing REOON_API_KEY in environment variables"
  | some _ =>
    verifyBatches contacts create poll
      (toBatches 100 (contacts.map Contact.email)) 0 [] []

/-! ## `main.run_automation_flow` deduplication and
`logger.GoogleSheetManager.get_processed_emails` -/

/-- `get_processed_emails`: `self.processed_sheet.col_values(1)[1:]` turned
into a set — the stored values are used exactly as stored (no
normalisation).  Membership in the Python set equals membership in this
list. -/
def get_processed_emails (col : List String) : List String := col.drop 1

/-- Python `str.lower()` on the emails of this pipeline (ASCII), as a
character-wise map so the kernel can evaluate it. -/
def pyLower (s : String) : String := ⟨s.data.map Char.toLower⟩

/-- The deduplication list comprehension of `run_automation_flow`:
`[c for c in all_apollo_contacts if c['email'] and c['email'].lower() not in
processed_emails]`. -/
def dedupNewContacts (processed : List String) (fetched : List Contact) :
    List Contact :=
  fetched.filter (fun c => c.email ≠ "" && !(processed.contains (pyLower c.email)))

/-! ## `instantly.delete_finished_leads` — the cursor-pagination loop

One campaign and one status filter: the `while True` loop posts
`/leads/list`, appends the returned leads' emails, takes the
`next_starting_after` cursor and breaks when the cursor is falsy (`None` or
`""`) or the page was empty.  The provider's successive responses are a
list, consumed one per request. -/

/-- A lead of a `/leads/list` response. -/
structure Lead where
  email : String
deriving Repr, DecidableEq

/-- One parsed `/leads/list` response: `data` and `next_starting_after`. -/
structure LeadsPage where
  data : List Lead := []
  next_starting_after : Option String := none
deriving Repr, DecidableEq

/-- Python falsiness of the cursor: `None` or the empty string. -/
def cursorFalsy : Option String → Bool
  | none => true
  | some s => s = ""

/-- The pagination loop for one campaign and one filter value, returning
the accumulated emails and the number of requests issued.  The emails of
every received page — the terminal one included — are appended *before*
the break test. -/
def paginateLeads : List LeadsPage → List String → List String × ℕ
  | [], acc => (acc, 0)
  | pg :: rest, acc =>
    let acc' := acc ++ pg.data.map Lead.email
    if cursorFalsy pg.next_starting_after || pg.data.isEmpty then (acc', 1)
    else
      let r := paginateLeads rest acc'
      (r.1, r.2 + 1)

/-- Spec-side helper for the upload total: the summed sizes of the
successful batches when the requests are numbered from `c`. -/
def succLengthsFrom (oracle : ℕ → ReqOutcome) : ℕ → List (List Contact) → ℕ
  | _, [] => 0
  | c, b :: rest =>
    (if isSuccess (oracle c) then b.length else 0) + succLengthsFrom oracle (c + 1) rest

/-! # Theorems -/

/-- **C1 (counterexample).** The claim says the primary group has exactly
`⌊n * p / 100⌋` contacts.  At `n = 100`, `p = 29` the code computes
`int(100 * (29 / 100)) = 28` (because the binary64 value of `29 / 100` is
slightly below `0.29`), while `⌊100 * 29 / 100⌋ = 29`: the primary group is
one contact short of the claimed size. -/
theorem split_contacts_floor_counterexample :
    (split_contacts (List.range 100) 29).map (fun g => g.1.length) = .ok 28 ∧
      100 * 29 / 100 = 29 := by
  exact ⟨by rfl, by rfl⟩

/-- **C1 (amended).** For every contact list, every shuffle outcome and
every integer percentage `p ∈ [0, 100]`, `split_contacts` succeeds and
returns a primary group (`'campaign_a'`) of exactly
`min (pySplitIndex n p) n` contacts — the float-computed index
`int(n * (p / 100))`, which equals `⌊n * p / 100⌋` for most but not all
inputs — and a secondary group (`'campaign_b'`) with the remaining
contacts; every input contact appears in exactly one group (the
concatenation of the groups is the shuffled list, a permutation of the
input). -/
theorem split_contacts_spec {α : Type} (contacts shuffled : List α) (p : ℤ)
    (hperm : shuffled.Perm contacts) (h0 : 0 ≤ p) (h1 : p ≤ 100) :
    ∃ ga gb, split_contacts shuffled p = .ok (ga, gb) ∧
      ga.length = min (pySplitIndex shuffled.length p.toNat) shuffled.length ∧
      gb.length =
        shuffled.length - min (pySplitIndex shuffled.length p.toNat) shuffled.length ∧
      ga ++ gb = shuffled ∧ (ga ++ gb).Perm contacts := by
  refine ⟨shuffled.take (pySplitIndex shuffled.length p.toNat),
         shuffled.drop (pySplitIndex shuffled.length p.toNat), ?_, ?_, ?_, ?_, ?_⟩
  · simp [split_contacts, h0, h1]
  · simp [List.length_take]
  · simp [List.length_drop]
    omega
  · exact List.take_append_drop _ _
  · rw [List.take_append_drop]
    exact hperm

/-- **C1 (witness).** The amended theorem applied to the concrete input
`[0, 1, 2]`, shuffled to `[2, 0, 1]`, at 60 %. -/
theorem split_contacts_spec_witness :
    ∃ ga gb, split_contacts [2, 0, 1] (60 : ℤ) = .ok (ga, gb) ∧
      ga.length = min (pySplitIndex (List.length ([2, 0, 1] : List ℕ)) (60 : ℤ).toNat)
        (List.length ([2, 0, 1] : List ℕ)) ∧
      gb.length = List.length ([2, 0, 1] : List ℕ) -
        min (pySplitIndex (List.length ([2, 0, 1] : List ℕ)) (60 : ℤ).toNat)
          (List.length ([2, 0, 1] : List ℕ)) ∧
      ga ++ gb = [2, 0, 1] ∧ (ga ++ gb).Perm [0, 1, 2] :=
  split_contacts_spec [0, 1, 2] [2, 0, 1] 60 (by decide) (by decide) (by decide)

/-- Helper: batching the empty list gives no batches. -/
theorem toBatches_nil (bs : ℕ) : toBatches bs ([] : List α) = [] := by
  simp [toBatches, toBatchesFuel]

/-- Helper: splitting `succLengthsFrom` across a concatenation. -/
theorem succLengthsFrom_append (oracle : ℕ → ReqOutcome)
    (A B : List (List Contact)) : ∀ c,
    succLengthsFrom oracle c (A ++ B) =
      succLengthsFrom oracle c A + succLengthsFrom oracle (c + A.length) B := by
  induction A with
  | nil => simp [succLengthsFrom]
  | cons b rest ih =>
    intro c
    simp only [List.cons_append, succLengthsFrom, List.length_cons, List.append_eq]
    rw [ih (c + 1), show c + (rest.length + 1) = c + 1 + rest.length by omega]
    omega

/-- Helper: the inner batch `foldl` of `push_to_instantly` advances the
request counter by the number of batches and the total by the sizes of the
successful ones. -/
theorem foldl_batches_eq (oracle : ℕ → ReqOutcome) (L : List (List Contact)) :
    ∀ c t, L.foldl (fun a batch =>
        if isSuccess (oracle a.1) then (a.1 + 1, a.2 + batch.length)
        else (a.1 + 1, a.2)) (c, t) =
      (c + L.length, t + succLengthsFrom oracle c L) := by
  induction L with
  | nil => simp [succLengthsFrom]
  | cons b rest ih =>
    intro c t
    by_cases h : isSuccess (oracle c)
    · simp only [List.foldl_cons, h, if_true, ih, succLengthsFrom, List.length_cons]
      rw [Prod.mk.injEq]
      exact ⟨by omega, by omega⟩
    · simp only [List.foldl_cons, h, if_false, ih, succLengthsFrom, List.length_cons,
        Bool.false_eq_true]
      rw [Prod.mk.injEq]
      exact ⟨by omega, by omega⟩

/-- Helper: the campaign `foldl` of `push_to_instantly` equals the flat view
over `plannedBatches`. -/
theorem foldl_campaigns_eq (env : InstantlyEnv) (oracle : ℕ → ReqOutcome)
    (bs : ℕ) (split : List (String × List Contact)) : ∀ c t,
    split.foldl (fun acc kv =>
      match campaignIdFor env kv.1 with
      | none => acc
      | some _ =>
        if kv.2 = [] then acc
        else (toBatches bs kv.2).foldl (fun a batch =>
          if isSuccess (oracle a.1) then (a.1 + 1, a.2 + batch.length)
          else (a.1 + 1, a.2)) acc) (c, t) =
      (c + (plannedBatches env split bs).length,
       t + succLengthsFrom oracle c (plannedBatches env split bs)) := by
  induction split with
  | nil => simp [plannedBatches, succLengthsFrom]
  | cons kv rest ih =>
    intro c t
    match hid : campaignIdFor env kv.1 with
    | none =>
      simp only [List.foldl_cons, hid, plannedBatches, List.filterMap_cons, ih]
    | some cid =>
      by_cases hnil : kv.2 = []
      · simp only [List.foldl_cons, hid, hnil, if_true, ih, plannedBatches,
          List.filterMap_cons, toBatches_nil, List.flatten_cons, List.nil_append]
      · simp only [List.foldl_cons, hid, hnil, if_false, foldl_batches_eq, ih,
          plannedBatches, List.filterMap_cons, List.flatten_cons]
        rw [succLengthsFrom_append]
        simp only [List.length_append]
        rw [Prod.mk.injEq]
        exact ⟨by omega, by omega⟩

/-- Helper: the recursive success total equals the `enumFrom`/filter view. -/
theorem succLengthsFrom_eq_enumFrom (oracle : ℕ → ReqOutcome)
    (L : List (List Contact)) : ∀ c,
    succLengthsFrom oracle c L =
      (((List.enumFrom c L).filter (fun ib => isSuccess (oracle ib.1))).map
        (fun ib => ib.2.length)).sum := by
  induction L with
  | nil => simp [succLengthsFrom]
  | cons b rest ih =>
    intro c
    by_cases h : isSuccess (oracle c)
    · simp [succLengthsFrom, List.enumFrom_cons, List.filter_cons, h, ih]
    · simp [succLengthsFrom, List.enumFrom_cons, List.filter_cons, h, ih]

/-- **C2.** `push_to_instantly` raises exactly when the top-level credential
check fails (API key or either configured campaign id missing/empty); once
that check passes it never raises — campaigns of the input whose key has no
configured destination id (any key other than `campaign_a` / `campaign_b`)
are skipped, and a failed or exception-raising batch request merely does
not count — and it returns the total number of contacts in the
successfully uploaded batches across all campaigns. -/
theorem push_to_instantly_error_spec (env : InstantlyEnv)
    (split : List (String × List Contact)) (oracle : ℕ → ReqOutcome) (bs : ℕ) :
    ((env.api_key = none ∨ env.campaign_primary_id = none ∨
        env.campaign_secondary_id = none) →
      push_to_instantly env split oracle bs =
        .error "Missing Instantly credentials (API Key or Campaign IDs) in environment variables") ∧
    (env.api_key ≠ none → env.campaign_primary_id ≠ none →
      env.campaign_secondary_id ≠ none →
      push_to_instantly env split oracle bs =
        .ok (uploadedTotal oracle (plannedBatches env split bs))) := by
  constructor
  · intro h
    simp only [push_to_instantly, if_pos h]
  · intro h1 h2 h3
    have hcond : ¬(env.api_key = none ∨ env.campaign_primary_id = none ∨
        env.campaign_secondary_id = none) := by
      simp [h1, h2, h3]
    simp only [push_to_instantly, if_neg hcond]
    rw [foldl_campaigns_eq]
    simp only [uploadedTotal, List.enum]
    rw [← succLengthsFrom_eq_enumFrom]
    simp

/-- **C2 (witness).** The theorem at a concrete environment holding all
three credentials, a split containing the configured `campaign_a`, an
unknown key `campaign_c` (skipped) and an empty `campaign_b`, and an oracle
failing the second request: the call returns the successful batches'
total without raising. -/
theorem push_to_instantly_error_spec_witness :
    ((InstantlyEnv.mk (some "k") (some "A") (some "B")).api_key = none ∨
        (InstantlyEnv.mk (some "k") (some "A") (some "B")).campaign_primary_id = none ∨
        (InstantlyEnv.mk (some "k") (some "A") (some "B")).campaign_secondary_id = none →
      push_to_instantly (InstantlyEnv.mk (some "k") (some "A") (some "B"))
          [("campaign_a", List.replicate 3 ({ email := "e" } : Contact)),
           ("campaign_c", [({ email := "f" } : Contact)]), ("campaign_b", [])]
          (fun i => if i = 1 then .status 500 else .status 200) 2 =
        .error "Missing Instantly credentials (API Key or Campaign IDs) in environment variables") ∧
    ((InstantlyEnv.mk (some "k") (some "A") (some "B")).api_key ≠ none →
      (InstantlyEnv.mk (some "k") (some "A") (some "B")).campaign_primary_id ≠ none →
      (InstantlyEnv.mk (some "k") (some "A") (some "B")).campaign_secondary_id ≠ none →
      push_to_instantly (InstantlyEnv.mk (some "k") (some "A") (some "B"))
          [("campaign_a", List.replicate 3 ({ email := "e" } : Contact)),
           ("campaign_c", [({ email := "f" } : Contact)]), ("campaign_b", [])]
          (fun i => if i = 1 then .status 500 else .status 200) 2 =
        .ok (uploadedTotal (fun i => if i = 1 then .status 500 else .status 200)
          (plannedBatches (InstantlyEnv.mk (some "k") (some "A") (some "B"))
            [("campaign_a", List.replicate 3 ({ email := "e" } : Contact)),
             ("campaign_c", [({ email := "f" } : Contact)]), ("campaign_b", [])] 2))) :=
  push_to_instantly_error_spec (InstantlyEnv.mk (some "k") (some "A") (some "B"))
    [("campaign_a", List.replicate 3 ({ email := "e" } : Contact)),
     ("campaign_c", [({ email := "f" } : Contact)]), ("campaign_b", [])]
    (fun i => if i = 1 then .status 500 else .status 200) 2

set_option maxRecDepth 20000 in
/-- **C5.** A single campaign group of 250 contacts at batch size 100 is
uploaded as exactly 3 batches of sizes 100, 100 and 50; with the second
batch request failing (status 400) and the others succeeding, the function
completes without raising and returns 150, not 250. -/
theorem push_batch_accounting_example :
    (toBatches 100 (List.replicate 250 ({ email := "x" } : Contact))).map
        List.length = [100, 100, 50] ∧
    push_to_instantly (InstantlyEnv.mk (some "k") (some "A") (some "B"))
        [("campaign_a", List.replicate 250 ({ email := "x" } : Contact))]
        (fun i => if i = 1 then .status 400 else .status 200) 100 = .ok 150 :=
  ⟨by rfl, by rfl⟩

/-- **C3.** The fetcher requests fixed-size pages sequentially from page 1
and stops exactly when a page returns zero records: for a source whose
successive pages hold 100, 100, 37 and 0 records, all with non-empty
emails, it issues exactly 4 page requests (for pages 1, 2, 3, 4) and
returns 237 contacts. -/
theorem fetch_pagination_spec (p1 p2 p3 : List RawContact)
    (h1 : p1.length = 100) (h2 : p2.length = 100) (h3 : p3.length = 37)
    (he1 : ∀ c ∈ p1, c.email ≠ "") (he2 : ∀ c ∈ p2, c.email ≠ "")
    (he3 : ∀ c ∈ p3, c.email ≠ "") :
    ∃ d, fetch_all_contacts_from_list (some "key") (some "list-1") none
        (pagesOracle [⟨p1⟩, ⟨p2⟩, ⟨p3⟩, ⟨[]⟩]) 10 = some (.ok d) ∧
      d.trace = [1, 2, 3, 4] ∧ d.contacts.length = 237 := by
  have hp1 : p1 ≠ [] := by intro h; rw [h] at h1; simp at h1
  have hp2 : p2 ≠ [] := by intro h; rw [h] at h2; simp at h2
  have hp3 : p3 ≠ [] := by intro h; rw [h] at h3; simp at h3
  have e1 : p1.filter (fun c => !decide (c.email = "")) = p1 :=
    List.filter_eq_self.mpr (by simpa using he1)
  have e2 : p2.filter (fun c => !decide (c.email = "")) = p2 :=
    List.filter_eq_self.mpr (by simpa using he2)
  have e3 : p3.filter (fun c => !decide (c.email = "")) = p3 :=
    List.filter_eq_self.mpr (by simpa using he3)
  refine ⟨⟨p1.map toContact ++ p2.map toContact ++ p3.map toContact,
    [1, 2, 3, 4], 3⟩, ?_, rfl, by simp [h1, h2, h3]⟩
  simp only [fetch_all_contacts_from_list]
  rw [if_neg (by decide)]
  simp [fetchLoop, testModeLimitHit, pagesOracle, List.getD, e1, e2, e3, hp1, hp2, hp3]

/-- **C3 (witness).** The pagination theorem at concrete pages of 100, 100
and 37 identical raw contacts with email `"a"`. -/
theorem fetch_pagination_spec_witness :
    ∃ d, fetch_all_contacts_from_list (some "key") (some "list-1") none
        (pagesOracle [⟨List.replicate 100 ({ email := "a" } : RawContact)⟩,
          ⟨List.replicate 100 ({ email := "a" } : RawContact)⟩,
          ⟨List.replicate 37 ({ email := "a" } : RawContact)⟩, ⟨[]⟩]) 10 =
        some (.ok d) ∧
      d.trace = [1, 2, 3, 4] ∧ d.contacts.length = 237 :=
  fetch_pagination_spec _ _ _ (by simp) (by simp) (by simp)
    (fun c hc => by rw [List.eq_of_mem_replicate hc]; decide)
    (fun c hc => by rw [List.eq_of_mem_replicate hc]; decide)
    (fun c hc => by rw [List.eq_of_mem_replicate hc]; decide)

/-- **C7.** When the request for a page comes back with HTTP status 429,
the loop continues with the *same* page number, an unchanged contact
accumulator (no duplicates from the failed attempt) and 900 more seconds
slept (the fixed 15-minute cooldown), consuming the next oracle answer
(one retry request); any other HTTP error status (non-429 4xx/5xx) makes
the fetch raise and abort. -/
theorem fetch_rate_limit_spec (oracle : ℕ → ApolloResp)
    (fuel req page slept : ℕ) (acc : List Contact) (trace : List ℕ)
    (status : ℕ) (pg : ApolloPage) (hreq : oracle req = .resp status pg) :
    (status = 429 →
      fetchLoop none oracle (fuel + 1) req page acc trace slept =
        fetchLoop none oracle fuel (req + 1) page acc (trace ++ [page])
          (slept + 900)) ∧
    (400 ≤ status → status < 600 → status ≠ 429 →
      fetchLoop none oracle (fuel + 1) req page acc trace slept =
        some (.error ("HTTP Error " ++ toString status))) := by
  constructor
  · intro h
    subst h
    simp [fetchLoop, testModeLimitHit, hreq]
  · intro hge hlt hne
    simp [fetchLoop, testModeLimitHit, hreq, hge, hlt, hne]

/-- **C7 (witness).** The rate-limit theorem at a concrete oracle that
answers request 0 with 429 and request 1 with 404, at page 3 of an
in-progress fetch. -/
theorem fetch_rate_limit_spec_witness :
    ((429 : ℕ) = 429 →
      fetchLoop none (fun r => if r = 0 then ApolloResp.resp 429 ⟨[]⟩
          else ApolloResp.resp 404 ⟨[]⟩) (5 + 1) 0 3 [] [] 0 =
        fetchLoop none (fun r => if r = 0 then ApolloResp.resp 429 ⟨[]⟩
          else ApolloResp.resp 404 ⟨[]⟩) 5 (0 + 1) 3 [] ([] ++ [3]) (0 + 900)) ∧
    (400 ≤ (429 : ℕ) → (429 : ℕ) < 600 → (429 : ℕ) ≠ 429 →
      fetchLoop none (fun r => if r = 0 then ApolloResp.resp 429 ⟨[]⟩
          else ApolloResp.resp 404 ⟨[]⟩) (5 + 1) 0 3 [] [] 0 =
        some (.error ("HTTP Error " ++ toString (429 : ℕ)))) :=
  fetch_rate_limit_spec _ 5 0 3 0 [] [] 429 ⟨[]⟩ rfl

/-- Helper: the contact map has an entry for an email exactly when some
submitted contact carries that email. -/
theorem contactMapLookup_isSome (contacts : List Contact) (e : String) :
    (contactMapLookup contacts e).isSome ↔ e ∈ contacts.map Contact.email := by
  simp only [contactMapLookup, List.find?_isSome, List.mem_reverse, List.mem_map]
  constructor
  · rintro ⟨c, hc, he⟩
    exact ⟨c, hc, by simpa using he⟩
  · rintro ⟨c, hc, he⟩
    exact ⟨c, hc, by simpa using he⟩

/-- Helper: when every returned email is known, the classification loop is
the filter/partition of the returned results appended to the accumulators. -/
theorem processResults_eq (contacts : List Contact) :
    ∀ (results : List (String × Verification)) (vs0 : List Contact)
      (is0 : List InvalidRecord),
    (∀ p ∈ results, p.1 ∈ contacts.map Contact.email) →
    processResults contacts results vs0 is0 =
      .ok (vs0 ++ (results.filter
            (fun p => p.2.is_safe_to_send && p.2.is_deliverable)).filterMap
            (fun p => contactMapLookup contacts p.1),
          is0 ++ (results.filter
            (fun p => !(p.2.is_safe_to_send && p.2.is_deliverable))).map
            (fun p => mkInvalid p.1 p.2)) := by
  intro results
  induction results with
  | nil => intro vs0 is0 _; simp [processResults]
  | cons p rest ih =>
    intro vs0 is0 h
    obtain ⟨e, v⟩ := p
    obtain ⟨c, hc⟩ := Option.isSome_iff_exists.mp
      ((contactMapLookup_isSome contacts e).mpr (h (e, v) (List.mem_cons_self _ _)))
    have hrest : ∀ q ∈ rest, q.1 ∈ contacts.map Contact.email :=
      fun q hq => h q (List.mem_cons_of_mem _ hq)
    by_cases hflag : (v.is_safe_to_send && v.is_deliverable) = true
    · have hneg : (!(v.is_safe_to_send && v.is_deliverable)) = false := by
        rw [hflag]; rfl
      simp only [processResults, hc]
      rw [if_pos hflag, ih _ _ hrest]
      simp only [List.filter_cons]
      rw [if_pos hflag, if_neg (by simp [hneg])]
      simp [hc, List.append_assoc]
    · have hflag' : (v.is_safe_to_send && v.is_deliverable) = false := by
        revert hflag
        cases (v.is_safe_to_send && v.is_deliverable) <;> simp
      have hneg : (!(v.is_safe_to_send && v.is_deliverable)) = true := by
        rw [hflag']; rfl
      simp only [processResults, hc]
      rw [if_neg hflag, ih _ _ hrest]
      simp only [List.filter_cons]
      rw [if_neg hflag, if_pos hneg]
      simp [List.append_assoc]

/-- Helper: a returned email with no submitted contact makes the
classification loop raise. -/
theorem processResults_error_of_unknown (contacts : List Contact) :
    ∀ (results : List (String × Verification)) (vs0 : List Contact)
      (is0 : List InvalidRecord),
    (∃ p ∈ results, p.1 ∉ contacts.map Contact.email) →
    ∃ m, processResults contacts results vs0 is0 = .error m := by
  intro results
  induction results with
  | nil => rintro vs0 is0 ⟨p, hp, _⟩; exact absurd hp (List.not_mem_nil p)
  | cons q rest ih =>
    rintro vs0 is0 ⟨p, hp, hunk⟩
    obtain ⟨e, v⟩ := q
    rcases List.mem_cons.mp hp with rfl | hmem
    · have hnone : contactMapLookup contacts e = none := by
        rcases hlook : contactMapLookup contacts e with _ | c
        · rfl
        · exact absurd ((contactMapLookup_isSome contacts e).mp (by simp [hlook]))
            (by simpa using hunk)
      exact ⟨"KeyError: " ++ e, by simp [processResults, hnone]⟩
    · rcases hlook : contactMapLookup contacts e with _ | c
      · exact ⟨"KeyError: " ++ e, by simp [processResults, hlook]⟩
      · by_cases hflag : (v.is_safe_to_send && v.is_deliverable) = true
        · obtain ⟨m, hm⟩ := ih (vs0 ++ [c]) is0 ⟨p, hmem, hunk⟩
          refine ⟨m, ?_⟩
          simp only [processResults, hlook]
          rw [if_pos hflag]
          exact hm
        · obtain ⟨m, hm⟩ := ih vs0 (is0 ++ [mkInvalid e v]) ⟨p, hmem, hunk⟩
          refine ⟨m, ?_⟩
          simp only [processResults, hlook]
          rw [if_neg hflag]
          exact hm

/-- Helper: a positive batch size chops a non-empty list into at least one
batch. -/
theorem toBatches_ne_nil (bs : ℕ) (l : List α) (hbs : bs ≠ 0) (hl : l ≠ []) :
    ∃ b rest, toBatches bs l = b :: rest := by
  obtain ⟨x, xs, rfl⟩ := List.exists_cons_of_ne_nil hl
  refine ⟨(x :: xs).take bs, toBatchesFuel bs xs.length ((x :: xs).drop bs), ?_⟩
  simp [toBatches, hbs, toBatchesFuel]

/-- **C4.** Over the *returned* result set of a completed task (all of whose
emails were submitted), `verify_emails` classifies an email as valid iff
both its `is_safe_to_send` and `is_deliverable` flags are true, and
otherwise records it as invalid with the reason string
`verification.get('status', 'unknown')` and a details string carrying the
diagnostic score (`mkInvalid`); the two output lists are exactly the images
of the two complementary filters of the returned set, so every returned
email lands in exactly one of them. -/
theorem verify_classification_spec (contacts : List Contact)
    (results : List (String × Verification)) (vs0 : List Contact)
    (is0 : List InvalidRecord)
    (h : ∀ p ∈ results, p.1 ∈ contacts.map Contact.email) :
    processResults contacts results vs0 is0 =
      .ok (vs0 ++ (results.filter
            (fun p => p.2.is_safe_to_send && p.2.is_deliverable)).filterMap
            (fun p => contactMapLookup contacts p.1),
          is0 ++ (results.filter
            (fun p => !(p.2.is_safe_to_send && p.2.is_deliverable))).map
            (fun p => mkInvalid p.1 p.2)) ∧
    results.length = (results.filter
        (fun p => p.2.is_safe_to_send && p.2.is_deliverable)).length +
      (results.filter
        (fun p => !(p.2.is_safe_to_send && p.2.is_deliverable))).length :=
  ⟨processResults_eq contacts results vs0 is0 h,
   List.length_eq_length_filter_add _⟩

/-- **C4 (witness).** The classification theorem at two concrete returned
results: one with both flags set (valid), one deliverable-but-unsafe
(invalid with reason `"risky"`). -/
theorem verify_classification_spec_witness :
    processResults [{ email := "a" }, { email := "b" }]
        [("a", { is_safe_to_send := true, is_deliverable := true }),
         ("b", { is_safe_to_send := false, is_deliverable := true,
                 status := some "risky", overall_score := some 40 })] [] [] =
      .ok ([] ++ (([("a", ({ is_safe_to_send := true, is_deliverable := true } : Verification)),
         ("b", { is_safe_to_send := false, is_deliverable := true,
                 status := some "risky", overall_score := some 40 })].filter
            (fun p => p.2.is_safe_to_send && p.2.is_deliverable)).filterMap
            (fun p => contactMapLookup [{ email := "a" }, { email := "b" }] p.1)),
          [] ++ (([("a", ({ is_safe_to_send := true, is_deliverable := true } : Verification)),
         ("b", { is_safe_to_send := false, is_deliverable := true,
                 status := some "risky", overall_score := some 40 })].filter
            (fun p => !(p.2.is_safe_to_send && p.2.is_deliverable))).map
            (fun p => mkInvalid p.1 p.2))) ∧
    ([("a", ({ is_safe_to_send := true, is_deliverable := true } : Verification)),
         ("b", { is_safe_to_send := false, is_deliverable := true,
                 status := some "risky", overall_score := some 40 })] :
        List (String × Verification)).length =
      (([("a", ({ is_safe_to_send := true, is_deliverable := true } : Verification)),
         ("b", { is_safe_to_send := false, is_deliverable := true,
                 status := some "risky", overall_score := some 40 })].filter
            (fun p => p.2.is_safe_to_send && p.2.is_deliverable))).length +
      (([("a", ({ is_safe_to_send := true, is_deliverable := true } : Verification)),
         ("b", { is_safe_to_send := false, is_deliverable := true,
                 status := some "risky", overall_score := some 40 })].filter
            (fun p => !(p.2.is_safe_to_send && p.2.is_deliverable)))).length :=
  verify_classification_spec [{ email := "a" }, { email := "b" }] _ [] [] (by decide)

/-- **C9.** The classification loop of `verify_emails` succeeds exactly when
every email key of the returned result set belongs to the submitted
contacts' emails; a returned email outside that set raises (a `KeyError`
re-raised by the enclosing handler) rather than being skipped, and through
the batch loop this aborts the whole `verify_emails` call. -/
theorem verify_unknown_email_spec (contacts : List Contact)
    (results : List (String × Verification)) (vs0 : List Contact)
    (is0 : List InvalidRecord) :
    ((∃ r, processResults contacts results vs0 is0 = .ok r) ↔
      ∀ p ∈ results, p.1 ∈ contacts.map Contact.email) ∧
    ((∃ p ∈ results, p.1 ∉ contacts.map Contact.email) →
      ∃ m, processResults contacts results vs0 is0 = .error m) ∧
    (∀ (key tid : String) (create : ℕ → CreateResp) (poll : ℕ → ℕ → PollResp),
      contacts ≠ [] → create 0 = .ok (some tid) →
      poll 0 0 = .ok (some "completed") results →
      (∃ p ∈ results, p.1 ∉ contacts.map Contact.email) →
      ∃ m, verify_emails (some key) contacts create poll = .error m) := by
  refine ⟨⟨?_, ?_⟩, processResults_error_of_unknown contacts results vs0 is0, ?_⟩
  · rintro ⟨r, hr⟩
    by_contra hnot
    push_neg at hnot
    obtain ⟨m, hm⟩ := processResults_error_of_unknown contacts results vs0 is0 hnot
    rw [hm] at hr
    exact Except.noConfusion hr
  · intro h
    exact ⟨_, processResults_eq contacts results vs0 is0 h⟩
  · intro key tid create poll hc hcr hpoll hunk
    obtain ⟨b, rest, hb⟩ := toBatches_ne_nil 100 (contacts.map Contact.email)
      (by decide) (by simpa using hc)
    obtain ⟨m, hm⟩ := processResults_error_of_unknown contacts results [] [] hunk
    have hpt : (pollTask (poll 0)).result = .ok results := by
      simp [pollTask, pollLoop, hpoll]
    refine ⟨m, ?_⟩
    simp only [verify_emails, hb, verifyBatches, hcr, hpt, hm]

/-- **C9 (witness).** The theorem at one submitted contact (`"a"`) and a
completed task whose result set mentions the unknown email `"zz"`: the
whole call errors. -/
theorem verify_unknown_email_spec_witness :
    ∃ m, verify_emails (some "k") [{ email := "a" }]
        (fun _ => CreateResp.ok (some "t"))
        (fun _ _ => PollResp.ok (some "completed") [("zz", {})]) = .error m :=
  (verify_unknown_email_spec [{ email := "a" }] [("zz", {})] [] []).2.2 "k" "t"
    _ _ (by simp) rfl rfl ⟨("zz", {}), by simp, by decide⟩

/-- Helper: the poll loop performs at most `tries` more polls, and its slept
time stays ten seconds per poll. -/
theorem pollLoop_bounds (poll : ℕ → PollResp) :
    ∀ tries att slept, (pollLoop poll tries att slept).attempts ≤ att + tries ∧
      (slept = 10 * att → (pollLoop poll tries att slept).slept =
        10 * (pollLoop poll tries att slept).attempts) := by
  intro tries
  induction tries with
  | zero =>
    intro att slept
    exact ⟨by simp [pollLoop], fun h => by simp [pollLoop, h]⟩
  | succ n ih =>
    intro att slept
    rcases hpa : poll att with m | ⟨st, results⟩
    · refine ⟨?_, fun h => ?_⟩
      · simp [pollLoop, hpa]
      · simp [pollLoop, hpa]
        omega
    · by_cases hst : st = some "completed"
      · refine ⟨?_, fun h => ?_⟩
        · simp [pollLoop, hpa, hst]
        · simp [pollLoop, hpa, hst]
          omega
      · refine ⟨?_, fun h => ?_⟩
        · simp only [pollLoop, hpa]
          rw [if_neg hst]
          have := (ih (att + 1) (slept + 10)).1
          omega
        · simp only [pollLoop, hpa]
          rw [if_neg hst]
          exact (ih (att + 1) (slept + 10)).2 (by omega)

/-- Helper: when no poll in the window reports completion, the loop runs its
whole budget and raises the timeout. -/
theorem pollLoop_timeout (poll : ℕ → PollResp) :
    ∀ tries att slept,
    (∀ k, att ≤ k → k < att + tries →
      ∃ st r, poll k = PollResp.ok st r ∧ st ≠ some "completed") →
    pollLoop poll tries att slept =
      ⟨att + tries, slept + 10 * tries, .error pollTimeoutMsg⟩ := by
  intro tries
  induction tries with
  | zero => intro att slept _; simp [pollLoop]
  | succ n ih =>
    intro att slept h
    obtain ⟨st, r, hpa, hst⟩ := h att (le_refl _) (by omega)
    simp only [pollLoop, hpa]
    rw [if_neg hst, ih (att + 1) (slept + 10)
      (fun k hk1 hk2 => h k (by omega) (by omega))]
    have h1 : att + 1 + n = att + (n + 1) := by omega
    have h2 : slept + 10 + 10 * n = slept + 10 * (n + 1) := by omega
    rw [h1, h2]

/-- **C6.** The poll loop of `verify_emails` polls at a fixed ten-second
interval (total slept time is always ten seconds per attempt) for at most
18 attempts; when none of the 18 polls reports `'completed'`, it runs the
full budget (18 polls, 180 s) and raises the timeout, and through the batch
loop this timeout aborts the whole verification call with no partial
results. -/
theorem verify_poll_timeout_spec :
    (∀ poll : ℕ → PollResp, (pollTask poll).attempts ≤ 18 ∧
      (pollTask poll).slept = 10 * (pollTask poll).attempts) ∧
    (∀ poll : ℕ → PollResp,
      (∀ k < 18, ∃ st r, poll k = PollResp.ok st r ∧ st ≠ some "completed") →
      pollTask poll = ⟨18, 180, .error pollTimeoutMsg⟩) ∧
    (∀ (key tid : String) (contacts : List Contact) (create : ℕ → CreateResp)
        (poll : ℕ → ℕ → PollResp),
      contacts ≠ [] → create 0 = .ok (some tid) →
      (∀ k < 18, ∃ st r, poll 0 k = PollResp.ok st r ∧ st ≠ some "completed") →
      verify_emails (some key) contacts create poll = .error pollTimeoutMsg) := by
  refine ⟨?_, ?_, ?_⟩
  · intro poll
    have h1 := (pollLoop_bounds poll 18 0 0).1
    have h2 := (pollLoop_bounds poll 18 0 0).2 rfl
    exact ⟨by simpa using h1, h2⟩
  · intro poll h
    have := pollLoop_timeout poll 18 0 0 (fun k hk1 hk2 => h k (by omega))
    simpa [pollTask] using this
  · intro key tid contacts create poll hc hcr hpoll
    obtain ⟨b, rest, hb⟩ := toBatches_ne_nil 100 (contacts.map Contact.email)
      (by decide) (by simpa using hc)
    have hpt : pollTask (poll 0) = ⟨18, 180, .error pollTimeoutMsg⟩ := by
      have := pollLoop_timeout (poll 0) 18 0 0 (fun k hk1 hk2 => hpoll k (by omega))
      simpa [pollTask] using this
    simp only [verify_emails, hb, verifyBatches, hcr, hpt]

/-- **C6 (witness).** The theorem's abort clause at one concrete contact, a
task id `"t"` and a poller that forever answers `'running'`: the whole
verification errors with the timeout message. -/
theorem verify_poll_timeout_spec_witness :
    verify_emails (some "k") [{ email := "a" }]
        (fun _ => CreateResp.ok (some "t"))
        (fun _ _ => PollResp.ok (some "running") []) = .error pollTimeoutMsg :=
  verify_poll_timeout_spec.2.2 "k" "t" [{ email := "a" }] _ _ (by simp) rfl
    (fun k _ => ⟨some "running", [], rfl, by simp⟩)

/-- **C8.** For one campaign and one status filter of
`delete_finished_leads`: as long as pages carry a truthy cursor and
non-empty data the loop continues; it stops at the first page whose cursor
is falsy (`None`/empty) or whose data is empty — issuing exactly one
request for it and none for anything after it — and the emails of that
terminal page, even when it is non-empty, are still in the accumulated
deletion set. -/
theorem delete_pagination_spec (pre rest : List LeadsPage) (term : LeadsPage)
    (acc : List String)
    (hpre : ∀ pg ∈ pre, cursorFalsy pg.next_starting_after = false ∧ pg.data ≠ [])
    (hterm : cursorFalsy term.next_starting_after = true ∨ term.data = []) :
    paginateLeads (pre ++ term :: rest) acc =
      (acc ++ (pre.map (fun pg => pg.data.map Lead.email)).flatten ++
        term.data.map Lead.email, pre.length + 1) := by
  revert hpre
  induction pre generalizing acc with
  | nil =>
    intro _
    rcases hterm with h | h
    · simp [paginateLeads, h]
    · simp [paginateLeads, h]
  | cons pg ps ih =>
    intro hpre
    have h1 := hpre pg (List.mem_cons_self _ _)
    have h2 : (cursorFalsy pg.next_starting_after || pg.data.isEmpty) = false := by
      rcases h1 with ⟨ha, hb⟩
      simp [ha, List.isEmpty_iff, hb]
    simp only [List.cons_append, paginateLeads, List.append_eq]
    rw [if_neg (by simp [h2])]
    rw [ih (acc ++ pg.data.map Lead.email)
      (fun q hq => hpre q (List.mem_cons_of_mem _ hq))]
    simp [List.append_assoc]

/-- **C8 (witness).** The theorem at one full page (cursor `"c1"`, one
lead), a terminal page of five leads with a null cursor, and a further page
that is never requested: two requests, six accumulated emails. -/
theorem delete_pagination_spec_witness :
    paginateLeads ([⟨[⟨"a"⟩], some "c1"⟩] ++
        (⟨[⟨"b"⟩, ⟨"c"⟩, ⟨"d"⟩, ⟨"e"⟩, ⟨"f"⟩], none⟩ : LeadsPage) ::
        [⟨[⟨"ghost"⟩], some "c9"⟩]) [] =
      ([] ++ ([(⟨[⟨"a"⟩], some "c1"⟩ : LeadsPage)].map
          (fun pg => pg.data.map Lead.email)).flatten ++
        (⟨[⟨"b"⟩, ⟨"c"⟩, ⟨"d"⟩, ⟨"e"⟩, ⟨"f"⟩], none⟩ : LeadsPage).data.map
          Lead.email, [(⟨[⟨"a"⟩], some "c1"⟩ : LeadsPage)].length + 1) :=
  delete_pagination_spec [⟨[⟨"a"⟩], some "c1"⟩] [⟨[⟨"ghost"⟩], some "c9"⟩]
    ⟨[⟨"b"⟩, ⟨"c"⟩, ⟨"d"⟩, ⟨"e"⟩, ⟨"f"⟩], none⟩ []
    (by intro pg hpg; simp at hpg; subst hpg; exact ⟨rfl, by simp⟩)
    (Or.inl rfl)

/-- **C10.** Deduplication in `run_automation_flow` lowercases the fetched
contact's email before the membership test, while `get_processed_emails`
returns the stored column values exactly as stored: a fetched contact with
a non-empty email is kept as new iff its lowercased email is absent from
the stored set; concretely, a stored `"Alice@X.com"` does not suppress
re-processing of a fetched `"alice@x.com"`. -/
theorem dedup_case_sensitivity_spec (col : List String) (fetched : List Contact)
    (c : Contact) (hne : c.email ≠ "") :
    (c ∈ dedupNewContacts (get_processed_emails col) fetched ↔
      c ∈ fetched ∧ pyLower c.email ∉ col.drop 1) ∧
    dedupNewContacts ["Alice@X.com"] [{ email := "alice@x.com" }] =
      [{ email := "alice@x.com" }] := by
  constructor
  · simp [dedupNewContacts, get_processed_emails, List.mem_filter, hne,
      List.elem_iff]
  · decide

/-- **C10 (witness).** The theorem at a stored column of header plus
`"Bob@Y.com"` and a fetched contact `"bob@y.com"`: the contact counts as
new. -/
theorem dedup_case_sensitivity_spec_witness :
    (({ email := "bob@y.com" } : Contact) ∈
        dedupNewContacts (get_processed_emails ["email", "Bob@Y.com"])
          [{ email := "bob@y.com" }] ↔
      ({ email := "bob@y.com" } : Contact) ∈
          [({ email := "bob@y.com" } : Contact)] ∧
        pyLower (Contact.email { email := "bob@y.com" }) ∉
          ["email", "Bob@Y.com"].drop 1) ∧
    dedupNewContacts ["Alice@X.com"] [{ email := "alice@x.com" }] =
      [{ email := "alice@x.com" }] :=
  dedup_case_sensitivity_spec ["email", "Bob@Y.com"]
    [{ email := "bob@y.com" }] { email := "bob@y.com" } (by decide)
